import Mathlib

/-!
Verification of the docugen multi-unit generation subsystem.

This file gives a shallow embedding of the parts of the repository that the
specification talks about:

* `src/src/agents/ppt/multi_slide_generator.py` — slide metadata, navigation
  chain, fan-out generation, assembly result;
* `src/src/agents/ppt/design_coordinator.py` — `DesignSpec`, default designs,
  the parse-or-default recovery path;
* `src/src/llm/client.py` — the structured-output fallback extraction;
* `src/src/agents/ppt/page_agent.py` — per-page generation and the
  narration sub-call;
* `src/backend/tasks.py` — the progress checkpoints of one pipeline run.

Python strings are modelled as Lean `String`s (indexing/slicing is by
characters, which matches Python semantics).  External effects (LLM calls,
the file system) are modelled as explicit parameters: an LLM response is a
plain string handed to the function under study, and a fallible step is a
parameter saying whether that step raised and with which message.
-/

namespace Docugen

/-! ## Decimal formatting (`str(n)` and the `{:02d}` format used for slide numbers) -/

/-- The decimal digit character for `d < 10` (as produced by Python `str`). -/
def digitChar (d : Nat) : Char :=
  match d with
  | 0 => '0' | 1 => '1' | 2 => '2' | 3 => '3' | 4 => '4'
  | 5 => '5' | 6 => '6' | 7 => '7' | 8 => '8' | 9 => '9'
  | _ => '*'

/-- Fuel-driven digit emission, most significant digit first. -/
def natReprAux : Nat → Nat → List Char
  | 0, _ => []
  | fuel + 1, n =>
    if n = 0 then [] else natReprAux fuel (n / 10) ++ [digitChar (n % 10)]

/-- The decimal digits of `n`, as Python `str(n)` produces them. -/
def reprChars (n : Nat) : List Char :=
  if n = 0 then ['0'] else natReprAux n n

/-- Python `str(n)` for a natural number. -/
def natStr (n : Nat) : String := String.mk (reprChars n)

/-- Python `"{:02d}".format(n)`: zero-pad to width two. -/
def pad2Chars (n : Nat) : List Char :=
  if n < 10 then '0' :: reprChars n else reprChars n

/-- Python `"{:02d}".format(n)` as a string. -/
def pad2 (n : Nat) : String := String.mk (pad2Chars n)

/-- Reading a digit string back as a number (used only in proofs, as a
retraction of the formatter). -/
def listVal (l : List Char) : Nat :=
  l.foldl (fun acc c => acc * 10 + (c.toNat - 48)) 0

/-! ## Multi-slide generator (`src/src/agents/ppt/multi_slide_generator.py`)

`SlideData` embeds the dictionaries in `slides_data`; only the keys the
generator reads (`type`, `title`, `template`) are modelled, each optional as
`dict.get` with a default is used throughout.  `PptConfig` embeds `ppt_config`
(keys `title` and `theme`; the `color_scheme` value is carried opaquely and
does not influence any claim).  The wall-clock `generation_time` field of the
metadata is omitted (pure IO). -/

structure SlideData where
  ty : Option String := none
  title : Option String := none
  template : Option String := none
  deriving DecidableEq, Inhabited, Repr

structure PptConfig where
  title : Option String := none
  theme : Option String := none
  deriving DecidableEq, Inhabited, Repr

/-- One entry of `slides_meta` built by `_create_slides_metadata`. -/
structure SlideMeta where
  slide_id : String
  slide_number : Nat
  file_name : String
  ty : String
  title : String
  template : String
  prev : Option String
  next : Option String
  deriving DecidableEq, Inhabited, Repr

/-- The metadata dictionary built by `_create_slides_metadata` (the manifest
that is saved to `data/slides_metadata.json` and rendered into the
`index.html` overview and `presenter.html` walkthrough). -/
structure SlidesMetadata where
  ppt_title : String
  total_slides : Nat
  theme : String
  slides : List SlideMeta
  deriving DecidableEq, Inhabited, Repr

/-- `slide_data.get('type', 'content')`. -/
def slideTypeOf (sd : SlideData) : String := sd.ty.getD "content"

/-- The file name `f"slide_{slide_number:02d}_{slides_data[i].get('type', 'content')}.html"`
for the slide at index `i` (slide number `i + 1`). -/
def fileNameAt (sds : List SlideData) (i : Nat) : String :=
  "slide_" ++ pad2 (i + 1) ++ "_" ++ slideTypeOf (sds.getD i default) ++ ".html"

/-- One iteration of the `for i, slide_data in enumerate(slides_data)` loop in
`_create_slides_metadata`. -/
def mkSlideMeta (sds : List SlideData) (i : Nat) : SlideMeta :=
  let sd := sds.getD i default
  { slide_id := "slide_" ++ pad2 (i + 1)
    slide_number := i + 1
    file_name := fileNameAt sds i
    ty := slideTypeOf sd
    title := sd.title.getD ("Slide " ++ natStr (i + 1))
    template := sd.template.getD (slideTypeOf sd)
    prev := if 0 < i then some (fileNameAt sds (i - 1)) else none
    next := if i < sds.length - 1 then some (fileNameAt sds (i + 1)) else none }

/-- `_create_slides_metadata(slides_data, ppt_config)`. -/
def create_slides_metadata (sds : List SlideData) (cfg : PptConfig) : SlidesMetadata :=
  { ppt_title := cfg.title.getD "Untitled Presentation"
    total_slides := sds.length
    theme := cfg.theme.getD "business"
    slides := (List.range sds.length).map (mkSlideMeta sds) }

/-- The output path `str(ppt_dir / "slides" / slide_meta['file_name'])`
returned by `_generate_single_slide` for slide index `i`. -/
def slidePathAt (pptDir : String) (sds : List SlideData) (i : Nat) : String :=
  pptDir ++ "/slides/" ++ fileNameAt sds i

/-- `_generate_all_slides`: every slide is launched, `asyncio.gather(...,
return_exceptions=True)` joins on all of them, and only the non-exception
results are collected (in original order).  `ok i` says whether the
`_generate_single_slide` task for index `i` completed without raising. -/
def generate_all_slides (sds : List SlideData) (pptDir : String)
    (ok : Nat → Bool) : List String :=
  ((List.range sds.length).filter ok).map (slidePathAt pptDir sds)

/-- The dictionary returned by `generate_ppt` on the success path. -/
structure PptSuccess where
  ppt_dir : String
  total_slides : Nat
  slide_files : List String
  index_page : String
  presenter_page : String
  /-- The metadata that step 4 rendered into the navigation pages and step 5
  saved to `data/slides_metadata.json`. -/
  saved_metadata : SlidesMetadata
  deriving DecidableEq, Inhabited, Repr

/-- The result dictionary of `generate_ppt`: `{"status": "success", ...}` or
`{"status": "error", "error": str(e)}`. -/
inductive PptResult where
  | success (info : PptSuccess)
  | error (msg : String)
  deriving DecidableEq, Inhabited, Repr

/-- The `status` field of the returned dictionary. -/
def PptResult.status : PptResult → String
  | .success _ => "success"
  | .error _ => "error"

/-- `generate_ppt(slides_data, ppt_config, output_dir)`.

Fallibility is explicit: `ok` records which `_generate_single_slide` tasks
raised (those exceptions are swallowed by `_generate_all_slides`), and
`stepExc` is the exception message, if any, raised by the other numbered
steps of the body (directory creation, metadata save, ...), which the
enclosing `try/except` converts into the error dictionary. -/
def generate_ppt (sds : List SlideData) (cfg : PptConfig) (outputDir : String)
    (ok : Nat → Bool) (stepExc : Option String) : PptResult :=
  match stepExc with
  | some e => .error e
  | none =>
    let pptDir := outputDir ++ "/ppt"
    let metadata := create_slides_metadata sds cfg
    let slideFiles := generate_all_slides sds pptDir ok
    .success
      { ppt_dir := pptDir
        total_slides := sds.length
        slide_files := slideFiles
        index_page := pptDir ++ "/index.html"
        presenter_page := pptDir ++ "/presenter.html"
        saved_metadata := metadata }

/-! ### File-name decoding and injectivity -/

/-- Recover the zero-padded slide-number digits from a slide file name
(everything between `"slide_"` and the following `'_'`). -/
def fileNumChars (s : String) : List Char :=
  (s.data.drop 6).takeWhile (fun c => c.isDigit)

/-- Resolve a `next`/`prev` file name in the slide list. -/
def findSlide (slides : List SlideMeta) (name : String) : Option SlideMeta :=
  slides.find? (fun s => s.file_name == name)

/-- Follow `next` pointers starting from `cur`, for at most `fuel` steps; the
walk stops at a slide without `next` (or whose `next` resolves to nothing). -/
def chainWalk (slides : List SlideMeta) : Nat → SlideMeta → List SlideMeta
  | 0, cur => [cur]
  | fuel + 1, cur =>
    cur :: ((cur.next.bind (findSlide slides)).elim []
      (fun s => chainWalk slides fuel s))

/-- The navigation-chain invariant of a slide list: dense numbering from 1,
no `prev` on the first and no `next` on the last slide, adjacent ordinals
referenced by file name everywhere else, and the `next`-walk from the first
slide visiting every slide exactly once (in order). -/
def navChainInvariant (slides : List SlideMeta) : Prop :=
  (∀ i, i < slides.length → (slides.getD i default).slide_number = i + 1) ∧
  (slides.getD 0 default).prev = none ∧
  (slides.getD (slides.length - 1) default).next = none ∧
  (∀ i, i < slides.length → 0 < i →
    (slides.getD i default).prev = some ((slides.getD (i - 1) default).file_name)) ∧
  (∀ i, i + 1 < slides.length →
    (slides.getD i default).next = some ((slides.getD (i + 1) default).file_name)) ∧
  chainWalk slides slides.length (slides.getD 0 default) = slides

/-! ### Concrete inputs used by counterexamples and witnesses -/

/-- Five unit specs (all of default type `content`). -/
def unitSpecs5 : List SlideData := List.replicate 5 {}

/-- Generation oracle in which unit 3 (index 2) raises and all others
succeed. -/
def okExcept3 : Nat → Bool := fun i => decide (i ≠ 2)

/-- An empty `ppt_config` (all defaults). -/
def cfg0 : PptConfig := {}

/-- Three unit specs with explicit types. -/
def unitSpecs3 : List SlideData :=
  [{ ty := some "cover" }, { ty := some "content" }, { ty := some "summary" }]


/-! ## Python string primitives

Character-level models of the `str` methods the repository uses.  Python
slicing and `len` count characters, so everything runs over `String.data`. -/

/-- Python `str.strip()` whitespace (space, tab, newline, carriage return,
vertical tab, form feed). -/
def isPyWS (c : Char) : Bool :=
  match c with
  | ' ' | '\t' | '\n' | '\r' | '\x0b' | '\x0c' => true
  | _ => false

/-- Python `s.strip()`. -/
def pyStrip (s : String) : String :=
  String.mk (((s.data.dropWhile isPyWS).reverse.dropWhile isPyWS).reverse)

/-- Python `s.startswith(pre)`. -/
def pyStartsWith (s pre : String) : Bool := pre.data.isPrefixOf s.data

/-- Python `s.endswith(suf)`. -/
def pyEndsWith (s suf : String) : Bool := suf.data.isSuffixOf s.data

/-- Python `s[n:]` (character slicing). -/
def strDropChars (s : String) (n : Nat) : String := String.mk (s.data.drop n)

/-- Python `s[:n]` for `0 ≤ n` (character slicing). -/
def strTakeChars (s : String) (n : Nat) : String := String.mk (s.data.take n)

/-! ## JSON values and `json.loads`

The repository feeds model responses to `json.loads`.  The embedding uses a
fuel-driven recursive-descent parser over the characters of the input,
covering the JSON subset the repository's payloads live in (`null`,
booleans, integers, strings with simple escapes, arrays, objects; floats
and `\u` escapes are rejected).  Trailing non-whitespace input is an error,
as in `json.loads`.  Duplicate object keys keep the last binding, as in
Python dictionaries. -/

inductive Json where
  | null
  | bool (b : Bool)
  | num (n : Int)
  | str (s : String)
  | arr (elems : List Json)
  | obj (members : List (String × Json))
  deriving Repr

/-- The `\x7b` character (open brace). -/
def lbrace : Char := Char.ofNat 123

/-- The `\x7d` character (close brace). -/
def rbrace : Char := Char.ofNat 125

/-- JSON's inter-token whitespace. -/
def jsonWS (c : Char) : Bool :=
  match c with
  | ' ' | '\t' | '\n' | '\r' => true
  | _ => false

/-- Drop inter-token whitespace. -/
def skipWS (l : List Char) : List Char := l.dropWhile jsonWS

/-- JSON string escape characters (simple escapes only). -/
def escChar (c : Char) : Option Char :=
  match c with
  | '"' => some '"'
  | '\\' => some '\\'
  | '/' => some '/'
  | 'n' => some '\n'
  | 't' => some '\t'
  | 'r' => some '\r'
  | 'b' => some '\x08'
  | 'f' => some '\x0c'
  | _ => none

/-- Parse the body of a JSON string (after the opening quote), returning the
decoded characters and the remaining input. -/
def parseJStrChars : Nat → List Char → Except String (List Char × List Char)
  | 0, _ => .error "string fuel exhausted"
  | _ + 1, [] => .error "unterminated string"
  | fuel + 1, c :: rest =>
    if c == '"' then .ok ([], rest)
    else if c == '\\' then
      match rest with
      | [] => .error "bad escape"
      | e :: rest2 =>
        match escChar e with
        | none => .error "bad escape"
        | some ec =>
          match parseJStrChars fuel rest2 with
          | .error msg => .error msg
          | .ok (cs, rem) => .ok (ec :: cs, rem)
    else
      match parseJStrChars fuel rest with
      | .error msg => .error msg
      | .ok (cs, rem) => .ok (c :: cs, rem)

/-- Parse a JSON integer (floats are rejected by this model). -/
def parseJNum (l : List Char) : Except String (Json × List Char) :=
  let (neg, l1) := match l with
    | '-' :: r => (true, r)
    | _ => (false, l)
  let ds := l1.takeWhile (fun c => c.isDigit)
  let rest := l1.drop ds.length
  if ds.isEmpty then .error "expecting value"
  else
    match rest with
    | '.' :: _ => .error "unsupported float"
    | 'e' :: _ => .error "unsupported float"
    | 'E' :: _ => .error "unsupported float"
    | _ =>
      let v : Int := Int.ofNat (listVal ds)
      .ok (.num (if neg then -v else v), rest)

/-- Parser modes: a plain value, the tail of an array (with accumulated
elements), the tail of an object (with accumulated members), or a single
`"key": value` member followed by the object tail. -/
inductive PMode where
  | value
  | arrElems (acc : List Json)
  | objMembers (acc : List (String × Json))
  | objMember (acc : List (String × Json))

/-- Fuel-driven JSON parser; every recursive call is on structurally smaller
fuel, so concrete inputs evaluate by `rfl`/`decide`. -/
def parseJ : Nat → PMode → List Char → Except String (Json × List Char)
  | 0, _, _ => .error "fuel exhausted"
  | fuel + 1, .value, l =>
    match skipWS l with
    | [] => .error "expecting value"
    | c :: rest =>
      if c == 'n' then
        if rest.take 3 = ['u', 'l', 'l'] then .ok (.null, rest.drop 3)
        else .error "expecting value"
      else if c == 't' then
        if rest.take 3 = ['r', 'u', 'e'] then .ok (.bool true, rest.drop 3)
        else .error "expecting value"
      else if c == 'f' then
        if rest.take 4 = ['a', 'l', 's', 'e'] then .ok (.bool false, rest.drop 4)
        else .error "expecting value"
      else if c == '"' then
        match parseJStrChars (rest.length + 1) rest with
        | .error msg => .error msg
        | .ok (cs, rem) => .ok (.str (String.mk cs), rem)
      else if c == '[' then
        match skipWS rest with
        | ']' :: r => .ok (.arr [], r)
        | l2 =>
          match parseJ fuel .value l2 with
          | .error msg => .error msg
          | .ok (j, rem) => parseJ fuel (.arrElems [j]) rem
      else if c == lbrace then
        match skipWS rest with
        | r0 :: r =>
          if r0 == rbrace then .ok (.obj [], r)
          else parseJ fuel (.objMember []) (r0 :: r)
        | [] => .error "unterminated object"
      else parseJNum (c :: rest)
  | fuel + 1, .arrElems acc, l =>
    match skipWS l with
    | ']' :: r => .ok (.arr acc.reverse, r)
    | ',' :: r =>
      match parseJ fuel .value r with
      | .error msg => .error msg
      | .ok (j, rem) => parseJ fuel (.arrElems (j :: acc)) rem
    | _ => .error "expecting comma or end of array"
  | fuel + 1, .objMembers acc, l =>
    match skipWS l with
    | c :: r =>
      if c == rbrace then .ok (.obj acc.reverse, r)
      else if c == ',' then parseJ fuel (.objMember acc) r
      else .error "expecting comma or end of object"
    | [] => .error "unterminated object"
  | fuel + 1, .objMember acc, l =>
    match skipWS l with
    | '"' :: r =>
      match parseJStrChars (r.length + 1) r with
      | .error msg => .error msg
      | .ok (cs, rem) =>
        match skipWS rem with
        | ':' :: r2 =>
          match parseJ fuel .value r2 with
          | .error msg => .error msg
          | .ok (j, rem2) =>
            parseJ fuel (.objMembers ((String.mk cs, j) :: acc)) rem2
        | _ => .error "expecting colon"
    | _ => .error "expecting property name"

/-- `json.loads(s)` (on the modelled subset): parse one value and require
only whitespace after it. -/
def parseJsonStr (s : String) : Except String Json :=
  match parseJ (s.data.length * 4 + 8) .value s.data with
  | .error msg => .error msg
  | .ok (j, rest) =>
    if (skipWS rest).isEmpty then .ok j else .error "Extra data"

/-- Whether a parse succeeded. -/
def jsonParseOk : Except String Json → Bool
  | .ok _ => true
  | .error _ => false

/-! ## Design coordinator (`src/src/agents/ppt/design_coordinator.py`) -/

/-- The `DesignSpec` pydantic model: all sixteen fields are required. -/
structure DesignSpec where
  primary_color : String
  secondary_color : String
  accent_color : String
  background_color : String
  text_color : String
  text_secondary_color : String
  title_font_size : String
  content_font_size : String
  font_family : String
  layout_style : String
  spacing : String
  border_radius : String
  use_shadows : Bool
  use_gradients : Bool
  animation_style : String
  chart_colors : List String
  deriving DecidableEq, Repr

/-- Look a key up in a JSON object's members (last binding wins, as in the
dictionary `json.loads` builds). -/
def objGet (members : List (String × Json)) (k : String) : Option Json :=
  (members.reverse.find? (fun m => m.1 == k)).map (fun m => m.2)

/-- Pydantic validation of a `str` field: only a JSON string is accepted. -/
def asStr : Json → Option String
  | .str s => some s
  | _ => none

/-- Pydantic validation of a `bool` field. -/
def asBool : Json → Option Bool
  | .bool b => some b
  | _ => none

/-- Pydantic validation of a `list[str]` field. -/
def asStrList : Json → Option (List String)
  | .arr xs => xs.mapM asStr
  | _ => none

/-- `DesignSpec(**design_dict)`: every field must be present with the right
shape; no further validation (in particular no hex-colour or palette-length
check) is performed. -/
def designSpecOfJson : Json → Option DesignSpec
  | .obj ms => do
    let pc ← objGet ms "primary_color" >>= asStr
    let sc ← objGet ms "secondary_color" >>= asStr
    let ac ← objGet ms "accent_color" >>= asStr
    let bc ← objGet ms "background_color" >>= asStr
    let tc ← objGet ms "text_color" >>= asStr
    let tsc ← objGet ms "text_secondary_color" >>= asStr
    let tfs ← objGet ms "title_font_size" >>= asStr
    let cfs ← objGet ms "content_font_size" >>= asStr
    let ff ← objGet ms "font_family" >>= asStr
    let ls ← objGet ms "layout_style" >>= asStr
    let sp ← objGet ms "spacing" >>= asStr
    let br ← objGet ms "border_radius" >>= asStr
    let ush ← objGet ms "use_shadows" >>= asBool
    let ugr ← objGet ms "use_gradients" >>= asBool
    let ast ← objGet ms "animation_style" >>= asStr
    let cc ← objGet ms "chart_colors" >>= asStrList
    pure
      { primary_color := pc, secondary_color := sc, accent_color := ac
        background_color := bc, text_color := tc, text_secondary_color := tsc
        title_font_size := tfs, content_font_size := cfs, font_family := ff
        layout_style := ls, spacing := sp, border_radius := br
        use_shadows := ush, use_gradients := ugr, animation_style := ast
        chart_colors := cc }
  | _ => none

/-- The `'ted'` entry of `default_designs` in `_get_default_design`. -/
def designTed : DesignSpec :=
  { primary_color := "#dc2626", secondary_color := "#1f2937"
    accent_color := "#fbbf24", background_color := "#ffffff"
    text_color := "#1f2937", text_secondary_color := "#6b7280"
    title_font_size := "4rem", content_font_size := "1.5rem"
    font_family := "'Segoe UI', 'Microsoft YaHei', sans-serif"
    layout_style := "minimal", spacing := "spacious", border_radius := "0px"
    use_shadows := false, use_gradients := false, animation_style := "none"
    chart_colors := ["#dc2626", "#1f2937", "#fbbf24", "#6b7280", "#f97316"] }

/-- The `'business'` entry of `default_designs` in `_get_default_design`. -/
def designBusiness : DesignSpec :=
  { primary_color := "#2563eb", secondary_color := "#1d4ed8"
    accent_color := "#3b82f6", background_color := "#ffffff"
    text_color := "#1f2937", text_secondary_color := "#6b7280"
    title_font_size := "2.5rem", content_font_size := "1rem"
    font_family := "'Segoe UI', 'Microsoft YaHei', sans-serif"
    layout_style := "business", spacing := "normal", border_radius := "0.5rem"
    use_shadows := true, use_gradients := true, animation_style := "subtle"
    chart_colors := ["#2563eb", "#3b82f6", "#60a5fa", "#93c5fd", "#dbeafe"] }

/-- The `'simple'` entry of `default_designs` in `_get_default_design`. -/
def designSimple : DesignSpec :=
  { primary_color := "#1f2937", secondary_color := "#374151"
    accent_color := "#4b5563", background_color := "#ffffff"
    text_color := "#1f2937", text_secondary_color := "#6b7280"
    title_font_size := "2.5rem", content_font_size := "1rem"
    font_family := "'Segoe UI', 'Microsoft YaHei', sans-serif"
    layout_style := "minimal", spacing := "spacious", border_radius := "0px"
    use_shadows := false, use_gradients := false, animation_style := "none"
    chart_colors := ["#1f2937", "#374151", "#4b5563", "#6b7280", "#9ca3af"] }

/-- `_get_default_design(style)`: the dictionary has entries for exactly
`'ted'`, `'business'` and `'simple'`; `dict.get(style, default_designs['business'])`
hands the business record to every other tag. -/
def get_default_design (style : String) : DesignSpec :=
  if style = "ted" then designTed
  else if style = "business" then designBusiness
  else if style = "simple" then designSimple
  else designBusiness

/-- The fence-stripping in `generate_design_spec` (note the `elif`: at most
one opening fence is removed). -/
def dcCleanContent (raw : String) : String :=
  let content := pyStrip raw
  let content :=
    if pyStartsWith content "```json" then strDropChars content 7
    else if pyStartsWith content "```" then strDropChars content 3
    else content
  let content :=
    if pyEndsWith content "```" then strTakeChars content (content.length - 3)
    else content
  pyStrip content

/-- The `try` body of `generate_design_spec`: `json.loads` then
`DesignSpec(**design_dict)`; `none` when either raises. -/
def parse_design_spec (raw : String) : Option DesignSpec :=
  match parseJsonStr (dcCleanContent raw) with
  | .ok j => designSpecOfJson j
  | .error _ => none

/-- `generate_design_spec(topic, outline, style)`, as a function of the model
response's `content` string (topic and outline only shape the prompt) and
the style tag: parse the cleaned response, and on any exception return the
style-keyed default. -/
def generate_design_spec (responseContent style : String) : DesignSpec :=
  match parse_design_spec responseContent with
  | some d => d
  | none => get_default_design style

/-- A hexadecimal digit. -/
def isHexDigitCh (c : Char) : Bool :=
  c.isDigit || ('a' ≤ c && c ≤ 'f') || ('A' ≤ c && c ≤ 'F')

/-- A `#RRGGBB` colour string. -/
def isValidHexColor (s : String) : Bool :=
  match s.data with
  | '#' :: rest => rest.length == 6 && rest.all isHexDigitCh
  | _ => false

/-- The spec's DesignSpec invariant: all six colour fields are `#RRGGBB`
strings and the chart palette has exactly 5 entries. -/
def designColorInvariant (d : DesignSpec) : Prop :=
  isValidHexColor d.primary_color = true ∧
  isValidHexColor d.secondary_color = true ∧
  isValidHexColor d.accent_color = true ∧
  isValidHexColor d.background_color = true ∧
  isValidHexColor d.text_color = true ∧
  isValidHexColor d.text_secondary_color = true ∧
  d.chart_colors.length = 5

/-! ## Gateway structured-output fallback (`src/src/llm/client.py`) -/

/-- The content extraction in `_fallback_structured_response` (two separate
`if`s on the opening fence, then the closing fence, then a strip). -/
def gatewayExtract (raw : String) : String :=
  let content := pyStrip raw
  let content :=
    if pyStartsWith content "```json" then strDropChars content 7 else content
  let content :=
    if pyStartsWith content "```" then strDropChars content 3 else content
  let content :=
    if pyEndsWith content "```" then strTakeChars content (content.length - 3)
    else content
  pyStrip content

/-- `_fallback_structured_response`, as a function of the model response's
`content`: extract, then `json.loads` (the optional pydantic conversion is
downstream of the parsed value and identical for identical values). -/
def fallback_structured_response (raw : String) : Except String Json :=
  parseJsonStr (gatewayExtract raw)

/-! ## Page agent (`src/src/agents/ppt/page_agent.py`) -/

/-- The shared context handed to every page agent; only the fields
`generate_page_html` reads are modelled. -/
structure GlobalContext where
  ppt_title : String
  style : String
  total_slides : Nat
  speech_scene : Option String := none
  deriving DecidableEq, Inhabited, Repr

/-- The dictionary returned by `generate_page_html`. -/
structure PageResult where
  html_content : String
  speech_notes : Option String := none
  deriving DecidableEq, Inhabited, Repr

/-- `re.search(r'<[a-zA-Z!]', html).start()`: index of the first `<`
followed by a letter or `!`. -/
def findTagIdx : List Char → Option Nat
  | c1 :: c2 :: rest =>
    if c1 == '<' && (c2.isAlpha || c2 == '!') then some 0
    else (findTagIdx (c2 :: rest)).map (· + 1)
  | _ => none

/-- The output cleaning in `generate_page_html`: strip, cut to the first
HTML tag, remove fence markers, strip, cut to the first tag again, strip. -/
def cleanPageHtml (raw : String) : String :=
  let html := pyStrip raw
  let html :=
    match findTagIdx html.data with
    | some idx => strDropChars html idx
    | none => html
  let html :=
    if pyStartsWith html "```html" then strDropChars html 7 else html
  let html :=
    if pyStartsWith html "```" then strDropChars html 3 else html
  let html :=
    if pyEndsWith html "```" then strTakeChars html (html.length - 3) else html
  let html := pyStrip html
  let html :=
    match findTagIdx html.data with
    | some idx => if 0 < idx then strDropChars html idx else html
    | none => html
  pyStrip html

/-- `generate_page_html(page_spec, global_context, content_data)`, as a
function of the main content call's response and the outcome of the
narration sub-call.  The narration call is issued only when
`global_context.speech_scene` is set; `_generate_speech_notes` has no
`try/except`, so a raised exception propagates out of the unit. -/
def generate_page_html (ctx : GlobalContext) (contentResponse : String)
    (narrationOutcome : Except String String) : Except String PageResult :=
  let html := cleanPageHtml contentResponse
  match ctx.speech_scene with
  | none => .ok { html_content := html }
  | some _ =>
    match narrationOutcome with
    | .ok notes => .ok { html_content := html, speech_notes := some (pyStrip notes) }
    | .error e => .error e

/-! ## Pipeline task progress (`src/backend/tasks.py`) -/

/-- Where one run of `generate_document_task` stops: the project row is
missing, agent initialisation raises, the search call raises, the search
returns a non-success status, the generated document cannot be found, or the
run completes. -/
inductive RunOutcome where
  | projectMissing
  | initRaises
  | searchRaises
  | searchUnsuccessful
  | outputMissing
  | completes
  deriving DecidableEq, Repr

/-- The fixed progress checkpoints of `generate_document_task`, in program
order. -/
def progressCheckpoints : List Nat := [0, 10, 20, 60, 80, 100]

/-- The progress values one run reports, in order.  Each entry is written to
the stored project row (`project.progress`) and sent over the progress
channel (`send_progress_update`) at the same checkpoint; the `except`
handler sets the failed status and error message but writes no progress
value. -/
def progressTrace : RunOutcome → List Nat
  | .projectMissing => []
  | .initRaises => [0]
  | .searchRaises => [0, 10, 20]
  | .searchUnsuccessful => [0, 10, 20, 60]
  | .outputMissing => [0, 10, 20, 60, 80]
  | .completes => [0, 10, 20, 60, 80, 100]

/-- A monotonically non-decreasing list of naturals. -/
def nondecreasing : List Nat → Bool
  | [] => true
  | [_] => true
  | a :: b :: rest => a ≤ b && nondecreasing (b :: rest)

/-! ### Concrete model responses used by counterexamples and witnesses -/

/-- A bare JSON payload. -/
def bareC6 : String := "\x7b\"title\": \"Intro\"\x7d"

/-- The same payload wrapped in leading prose, a fenced block, and trailing
prose. -/
def wrappedC6 : String :=
  "Here is the JSON you asked for:\n```json\n\x7b\"title\": \"Intro\"\x7d\n```\nLet me know if you need changes."

/-- A model response that passes every pydantic shape check of `DesignSpec`
while violating the spec's colour/palette invariant: `primary_color` is the
word `red` and the chart palette has 2 entries. -/
def c4Response : String :=
  "\x7b \"primary_color\": \"red\", \"secondary_color\": \"blue\", \"accent_color\": \"green\", \"background_color\": \"white\", \"text_color\": \"black\", \"text_secondary_color\": \"gray\", \"title_font_size\": \"2rem\", \"content_font_size\": \"1rem\", \"font_family\": \"serif\", \"layout_style\": \"modern\", \"spacing\": \"normal\", \"border_radius\": \"0px\", \"use_shadows\": true, \"use_gradients\": false, \"animation_style\": \"none\", \"chart_colors\": [\"#111111\", \"#222222\"] \x7d"

/-- A shared context that requests narration. -/
def ctxScene : GlobalContext :=
  { ppt_title := "Deck", style := "business", total_slides := 3
    speech_scene := some "conference keynote" }

/-- A shared context that does not request narration. -/
def ctxNoScene : GlobalContext :=
  { ppt_title := "Deck", style := "business", total_slides := 3 }

/-! ## Supporting lemmas and claim theorems -/

theorem listVal_from (a : Nat) (l : List Char) :
    l.foldl (fun acc c => acc * 10 + (c.toNat - 48)) a =
      a * 10 ^ l.length + listVal l := by
  induction l generalizing a with
  | nil => simp [listVal]
  | cons c t ih =>
    simp only [List.foldl_cons, List.length_cons, listVal]
    rw [ih (a * 10 + (c.toNat - 48)), ih (0 * 10 + (c.toNat - 48))]
    ring

theorem listVal_natReprAux (fuel n : Nat) (h : n ≤ fuel) :
    listVal (natReprAux fuel n) = n := by
  induction fuel generalizing n with
  | zero =>
    interval_cases n
    simp [natReprAux, listVal]
  | succ fuel ih =>
    by_cases hn : n = 0
    · simp [natReprAux, hn, listVal]
    · have hdiv : n / 10 ≤ fuel := by
        have : n / 10 < n := Nat.div_lt_self (by omega) (by omega)
        omega
      have hmod : (digitChar (n % 10)).toNat - 48 = n % 10 := by
        have h10 : n % 10 < 10 := Nat.mod_lt _ (by omega)
        have : ∀ d, d < 10 → (digitChar d).toNat - 48 = d := by decide
        exact this _ h10
      simp only [natReprAux, hn, if_false]
      unfold listVal
      rw [List.foldl_append]
      simp only [List.foldl_cons, List.foldl_nil]
      have hv := ih (n / 10) hdiv
      unfold listVal at hv
      rw [hv, hmod]
      omega

theorem listVal_reprChars (n : Nat) : listVal (reprChars n) = n := by
  by_cases hn : n = 0
  · simp [reprChars, hn, listVal]
  · simp only [reprChars, hn, if_false]
    exact listVal_natReprAux n n le_rfl

theorem listVal_pad2Chars (n : Nat) : listVal (pad2Chars n) = n := by
  by_cases h : n < 10
  · simp only [pad2Chars, h, if_true]
    unfold listVal
    simp only [List.foldl_cons]
    have h0 : ('0'.toNat - 48) = 0 := by decide
    rw [h0]
    simpa [listVal] using listVal_reprChars n
  · simp only [pad2Chars, h, if_false]
    exact listVal_reprChars n

theorem pad2Chars_injective {a b : Nat} (h : pad2Chars a = pad2Chars b) :
    a = b := by
  have := congrArg listVal h
  rwa [listVal_pad2Chars, listVal_pad2Chars] at this

theorem natReprAux_digits (fuel n : Nat) :
    ∀ c ∈ natReprAux fuel n, c.isDigit = true := by
  induction fuel generalizing n with
  | zero => simp [natReprAux]
  | succ fuel ih =>
    by_cases hn : n = 0
    · simp [natReprAux, hn]
    · simp only [natReprAux, hn, if_false]
      intro c hc
      rcases List.mem_append.mp hc with h1 | h2
      · exact ih _ c h1
      · have h10 : n % 10 < 10 := Nat.mod_lt _ (by omega)
        have hd : ∀ d, d < 10 → (digitChar d).isDigit = true := by decide
        simp only [List.mem_singleton] at h2
        subst h2
        exact hd _ h10

theorem pad2Chars_digits (n : Nat) :
    ∀ c ∈ pad2Chars n, c.isDigit = true := by
  intro c hc
  by_cases h : n < 10 <;>
    simp only [pad2Chars, h, if_true, if_false] at hc
  · rcases List.mem_cons.mp hc with h1 | h2
    · subst h1; decide
    · by_cases hn : n = 0
      · simp [reprChars, hn] at h2
        subst h2; decide
      · simp only [reprChars, hn, if_false] at h2
        exact natReprAux_digits n n c h2
  · by_cases hn : n = 0
    · simp [reprChars, hn] at hc
      subst hc; decide
    · simp only [reprChars, hn, if_false] at hc
      exact natReprAux_digits n n c hc

theorem takeWhile_digits_append (u s : List Char)
    (hu : ∀ c ∈ u, c.isDigit = true) :
    (u ++ '_' :: s).takeWhile (fun c => c.isDigit) = u := by
  induction u with
  | nil => simp [List.takeWhile_cons]
  | cons c t ih =>
    have hc : c.isDigit = true := hu c (List.mem_cons_self _ _)
    have ht := ih (fun d hd => hu d (List.mem_cons_of_mem _ hd))
    simp [List.takeWhile_cons, hc, ht]

theorem fileNumChars_fileNameAt (sds : List SlideData) (i : Nat) :
    fileNumChars (fileNameAt sds i) = pad2Chars (i + 1) := by
  unfold fileNameAt fileNumChars
  have hdata :
      ("slide_" ++ pad2 (i + 1) ++ "_" ++ slideTypeOf (sds.getD i default) ++ ".html").data
        = "slide_".data ++ (pad2Chars (i + 1) ++
            ('_' :: (slideTypeOf (sds.getD i default)).data ++ ".html".data)) := by
    simp [String.data_append, pad2]
  rw [hdata]
  have h6 : "slide_".data = ['s', 'l', 'i', 'd', 'e', '_'] := rfl
  rw [h6]
  simp only [List.drop_succ_cons, List.drop_zero]
  rw [← List.append_assoc]
  have := takeWhile_digits_append (pad2Chars (i + 1))
    ((slideTypeOf (sds.getD i default)).data ++ ".html".data) (pad2Chars_digits (i + 1))
  simpa using this

theorem fileNameAt_injective (sds : List SlideData) {i j : Nat}
    (h : fileNameAt sds i = fileNameAt sds j) : i = j := by
  have := congrArg fileNumChars h
  rw [fileNumChars_fileNameAt, fileNumChars_fileNameAt] at this
  have := pad2Chars_injective this
  omega

theorem slidePathAt_injective (pptDir : String) (sds : List SlideData)
    {i j : Nat} (h : slidePathAt pptDir sds i = slidePathAt pptDir sds j) :
    i = j := by
  unfold slidePathAt at h
  have hdata := congrArg String.data h
  simp only [String.data_append] at hdata
  rw [List.append_assoc, List.append_assoc] at hdata
  have hcancel := List.append_cancel_left hdata
  have hcancel2 := List.append_cancel_left hcancel
  exact fileNameAt_injective sds (String.ext hcancel2)

/-! ### The navigation chain

The `next` pointers of the metadata are file names; the spec's traversal
("follow `next` from the first unit") is embedded as a fuel-bounded walk that
resolves each pointer by looking the file name up in the slide list, exactly
as a navigation consumer of the manifest would. -/

theorem slides_length (sds : List SlideData) (cfg : PptConfig) :
    (create_slides_metadata sds cfg).slides.length = sds.length := by
  simp [create_slides_metadata]

theorem slides_getD (sds : List SlideData) (cfg : PptConfig) (i : Nat)
    (h : i < sds.length) :
    (create_slides_metadata sds cfg).slides.getD i default = mkSlideMeta sds i := by
  unfold create_slides_metadata List.getD
  simp [List.getElem?_map, List.getElem?_range, h]

theorem find_eq_of_getD {α : Type} [Inhabited α] (p : α → Bool) :
    ∀ (l : List α) (k : Nat), k < l.length →
      (∀ j, j < k → p (l.getD j default) = false) →
      p (l.getD k default) = true →
      l.find? p = some (l.getD k default)
  | [], k, hk => by simp at hk
  | a :: t, 0, hk => fun _ hk2 => by
    simp only [List.getD_cons_zero] at hk2 ⊢
    rw [List.find?_cons_of_pos _ hk2]
  | a :: t, k + 1, hk => fun hbefore hk2 => by
    have ha : p a = false := by simpa using hbefore 0 (by omega)
    rw [List.find?_cons_of_neg _ (by simp [ha])]
    simp only [List.getD_cons_succ] at hk2 ⊢
    exact find_eq_of_getD p t k (by simpa using hk)
      (fun j hj => by simpa using hbefore (j + 1) (by omega)) hk2

theorem findSlide_next (sds : List SlideData) (cfg : PptConfig) (k : Nat)
    (hk : k < sds.length) :
    findSlide (create_slides_metadata sds cfg).slides (fileNameAt sds k) =
      some ((create_slides_metadata sds cfg).slides.getD k default) := by
  unfold findSlide
  apply find_eq_of_getD
  · rw [slides_length]; exact hk
  · intro j hj
    rw [slides_getD sds cfg j (by omega)]
    have hne : fileNameAt sds j ≠ fileNameAt sds k := by
      intro hcontra
      have := fileNameAt_injective sds hcontra
      omega
    simpa [mkSlideMeta, fileNameAt] using hne
  · rw [slides_getD sds cfg k hk]
    simp [mkSlideMeta]

theorem chainWalk_from (sds : List SlideData) (cfg : PptConfig) :
    ∀ (fuel i : Nat), i < sds.length → sds.length - i ≤ fuel + 1 →
      chainWalk (create_slides_metadata sds cfg).slides fuel
          ((create_slides_metadata sds cfg).slides.getD i default) =
        (create_slides_metadata sds cfg).slides.drop i := by
  intro fuel
  induction fuel with
  | zero =>
    intro i hi hf
    have hlast : i = sds.length - 1 := by omega
    have hdrop :
        (create_slides_metadata sds cfg).slides.drop i =
          [(create_slides_metadata sds cfg).slides.getD i default] := by
      have hlen := slides_length sds cfg
      have hi2 : i < (create_slides_metadata sds cfg).slides.length := by omega
      rw [List.drop_eq_getElem_cons hi2]
      have hnil : (create_slides_metadata sds cfg).slides.drop (i + 1) = [] := by
        apply List.drop_eq_nil_of_le
        omega
      rw [hnil]
      congr 1
      rw [List.getD_eq_getElem _ _ hi2]
    rw [hdrop]
    rfl
  | succ fuel ih =>
    intro i hi hf
    have hget := slides_getD sds cfg i hi
    by_cases hlast : i < sds.length - 1
    · have hnext : ((create_slides_metadata sds cfg).slides.getD i default).next =
          some (fileNameAt sds (i + 1)) := by
        rw [hget]; simp [mkSlideMeta, hlast]
      rw [chainWalk, hnext]
      simp only [Option.some_bind,
        findSlide_next sds cfg (i + 1) (by omega : i + 1 < sds.length),
        Option.elim_some]
      rw [ih (i + 1) (by omega) (by omega)]
      have hlen := slides_length sds cfg
      have hi2 : i < (create_slides_metadata sds cfg).slides.length := by omega
      rw [List.drop_eq_getElem_cons hi2]
      congr 1
      rw [List.getD_eq_getElem _ _ hi2]
    · have hnext : ((create_slides_metadata sds cfg).slides.getD i default).next =
          none := by
        rw [hget]; simp [mkSlideMeta, hlast]
      rw [chainWalk, hnext]
      simp only [Option.none_bind, Option.elim_none]
      have hlen := slides_length sds cfg
      have hi2 : i < (create_slides_metadata sds cfg).slides.length := by omega
      rw [List.drop_eq_getElem_cons hi2]
      have hnil : (create_slides_metadata sds cfg).slides.drop (i + 1) = [] := by
        apply List.drop_eq_nil_of_le
        omega
      rw [hnil]
      congr 1
      rw [List.getD_eq_getElem _ _ hi2]

/-- Membership in the collected slide-file list is governed exactly by the
unit's own generation outcome. -/
theorem mem_generate_all_slides (sds : List SlideData) (pptDir : String)
    (ok : Nat → Bool) (i : Nat) (hi : i < sds.length) :
    slidePathAt pptDir sds i ∈ generate_all_slides sds pptDir ok ↔ ok i = true := by
  unfold generate_all_slides
  constructor
  · intro h
    rcases List.mem_map.mp h with ⟨j, hj, hpath⟩
    have hji := slidePathAt_injective pptDir sds hpath
    rcases List.mem_filter.mp hj with ⟨_, hok⟩
    rwa [hji] at hok
  · intro h
    exact List.mem_map.mpr ⟨i, List.mem_filter.mpr ⟨List.mem_range.mpr hi, h⟩, rfl⟩

/-! ## Claims about the assembler (C1, C2, C8, C10) -/

/-- C1 (counterexample): for 5 unit specs where unit 3 raises during
generation, the claim says the manifest's renderable chain has 4 surviving
units whose adjacency skips the missing ordinal.  In fact `generate_ppt`
computes the metadata before generation and never updates it: the saved
manifest (also rendered into the overview and presenter pages) still lists
all 5 units, survivor 2's `next` and survivor 4's `prev` still name failed
slide 3's file, and only the returned `slide_files` list has 4 entries. -/
theorem claim_C1_counterexample :
    generate_ppt unitSpecs5 cfg0 "/out" okExcept3 none =
      .success
        { ppt_dir := "/out/ppt"
          total_slides := 5
          slide_files :=
            ["/out/ppt/slides/slide_01_content.html",
             "/out/ppt/slides/slide_02_content.html",
             "/out/ppt/slides/slide_04_content.html",
             "/out/ppt/slides/slide_05_content.html"]
          index_page := "/out/ppt/index.html"
          presenter_page := "/out/ppt/presenter.html"
          saved_metadata := create_slides_metadata unitSpecs5 cfg0 } ∧
    (create_slides_metadata unitSpecs5 cfg0).slides.length = 5 ∧
    ((create_slides_metadata unitSpecs5 cfg0).slides.getD 1 default).next =
      some "slide_03_content.html" ∧
    ((create_slides_metadata unitSpecs5 cfg0).slides.getD 3 default).prev =
      some "slide_03_content.html" := by
  refine ⟨?_, ?_, ?_, ?_⟩ <;> rfl

/-- C1 (amended): the assembler does not recompute the navigation chain
after failures.  The saved manifest is computed before generation and is
independent of which units failed: it always lists all units in original
order with the original adjacency (entries for failed units included, with
no failure marking); failed units are excluded only from the returned
`slide_files` list. -/
theorem claim_C1 (sds : List SlideData) (cfg : PptConfig) (outputDir : String)
    (ok okOther : Nat → Bool) (info infoOther : PptSuccess)
    (h : generate_ppt sds cfg outputDir ok none = .success info)
    (hOther : generate_ppt sds cfg outputDir okOther none = .success infoOther) :
    info.saved_metadata = infoOther.saved_metadata ∧
    info.saved_metadata = create_slides_metadata sds cfg ∧
    info.saved_metadata.slides.length = sds.length ∧
    info.slide_files =
      ((List.range sds.length).filter ok).map
        (slidePathAt (outputDir ++ "/ppt") sds) := by
  simp only [generate_ppt, PptResult.success.injEq] at h hOther
  refine ⟨?_, ?_, ?_, ?_⟩
  · rw [← h, ← hOther]
  · rw [← h]
  · rw [← h]; exact slides_length sds cfg
  · rw [← h]; rfl

/-- C1 (witness for the amended claim). -/
theorem claim_C1_witness :
    (generate_ppt unitSpecs5 cfg0 "/out" okExcept3 none =
        .success
          { ppt_dir := "/out/ppt"
            total_slides := 5
            slide_files :=
              ["/out/ppt/slides/slide_01_content.html",
               "/out/ppt/slides/slide_02_content.html",
               "/out/ppt/slides/slide_04_content.html",
               "/out/ppt/slides/slide_05_content.html"]
            index_page := "/out/ppt/index.html"
            presenter_page := "/out/ppt/presenter.html"
            saved_metadata := create_slides_metadata unitSpecs5 cfg0 }) ∧
    (generate_ppt unitSpecs5 cfg0 "/out" (fun _ => true) none =
        .success
          { ppt_dir := "/out/ppt"
            total_slides := 5
            slide_files :=
              ["/out/ppt/slides/slide_01_content.html",
               "/out/ppt/slides/slide_02_content.html",
               "/out/ppt/slides/slide_03_content.html",
               "/out/ppt/slides/slide_04_content.html",
               "/out/ppt/slides/slide_05_content.html"]
            index_page := "/out/ppt/index.html"
            presenter_page := "/out/ppt/presenter.html"
            saved_metadata := create_slides_metadata unitSpecs5 cfg0 }) ∧
    ((create_slides_metadata unitSpecs5 cfg0 =
        create_slides_metadata unitSpecs5 cfg0) ∧
      create_slides_metadata unitSpecs5 cfg0 = create_slides_metadata unitSpecs5 cfg0 ∧
      (create_slides_metadata unitSpecs5 cfg0).slides.length = unitSpecs5.length ∧
      ["/out/ppt/slides/slide_01_content.html",
       "/out/ppt/slides/slide_02_content.html",
       "/out/ppt/slides/slide_04_content.html",
       "/out/ppt/slides/slide_05_content.html"] =
        ((List.range unitSpecs5.length).filter okExcept3).map
          (slidePathAt ("/out" ++ "/ppt") unitSpecs5)) :=
  ⟨rfl, rfl, claim_C1 unitSpecs5 cfg0 "/out" okExcept3 (fun _ => true) _ _ rfl rfl⟩

/-- C2: over a run of the assembler whose non-unit steps do not raise, the
result is never reported failed when units fail: the status is `"error"`
only if zero units succeeded (vacuously, since unit failures never produce
the error dictionary), partial success yields `"success"`, and each unit's
file appears in the collected `slide_files` exactly according to its own
generation outcome, independent of its siblings. -/
theorem claim_C2 (sds : List SlideData) (cfg : PptConfig) (outputDir : String)
    (ok : Nat → Bool) :
    ((generate_ppt sds cfg outputDir ok none).status = "error" →
      ((List.range sds.length).filter ok).length = 0) ∧
    (0 < ((List.range sds.length).filter ok).length →
      (generate_ppt sds cfg outputDir ok none).status = "success") ∧
    (∀ info, generate_ppt sds cfg outputDir ok none = .success info →
      ∀ i, i < sds.length →
        (slidePathAt (outputDir ++ "/ppt") sds i ∈ info.slide_files ↔
          ok i = true)) := by
  refine ⟨?_, ?_, ?_⟩
  · intro h
    simp [generate_ppt, PptResult.status] at h
  · intro _
    rfl
  · intro info hinfo i hi
    simp only [generate_ppt, PptResult.success.injEq] at hinfo
    rw [← hinfo]
    exact mem_generate_all_slides sds (outputDir ++ "/ppt") ok i hi

/-- C2 (witness): with unit 3 of 5 failing, four units succeed and the run
is still reported as a success; unit 2's file is collected, unit 3's is
governed by its own (failed) outcome. -/
theorem claim_C2_witness :
    ((generate_ppt unitSpecs5 cfg0 "/out" okExcept3 none).status = "error" →
      ((List.range unitSpecs5.length).filter okExcept3).length = 0) ∧
    (0 < ((List.range unitSpecs5.length).filter okExcept3).length →
      (generate_ppt unitSpecs5 cfg0 "/out" okExcept3 none).status = "success") ∧
    (∀ info, generate_ppt unitSpecs5 cfg0 "/out" okExcept3 none = .success info →
      ∀ i, i < unitSpecs5.length →
        (slidePathAt ("/out" ++ "/ppt") unitSpecs5 i ∈ info.slide_files ↔
          okExcept3 i = true)) :=
  claim_C2 unitSpecs5 cfg0 "/out" okExcept3

/-- C8: for every non-empty list of unit specs, the slide metadata computed
before generation forms a single linear chain: the slide list has one entry
per spec, slides are numbered densely from 1, the first slide has no `prev`
and the last no `next`, every other slide's `prev`/`next` name the slides at
the adjacent ordinals, and following `next` from the first slide visits
every slide exactly once, in order. -/
theorem claim_C8 (sds : List SlideData) (cfg : PptConfig) (hne : sds ≠ []) :
    (create_slides_metadata sds cfg).slides.length = sds.length ∧
    navChainInvariant (create_slides_metadata sds cfg).slides := by
  have hn : 0 < sds.length := List.length_pos.mpr hne
  have hlen := slides_length sds cfg
  refine ⟨hlen, ?_, ?_, ?_, ?_, ?_, ?_⟩
  · intro i hi
    rw [hlen] at hi
    rw [slides_getD sds cfg i hi]
    rfl
  · rw [slides_getD sds cfg 0 hn]
    simp [mkSlideMeta]
  · rw [hlen, slides_getD sds cfg (sds.length - 1) (by omega)]
    simp [mkSlideMeta]
  · intro i hi hpos
    rw [hlen] at hi
    rw [slides_getD sds cfg i hi, slides_getD sds cfg (i - 1) (by omega)]
    simp [mkSlideMeta, hpos]
  · intro i hi
    rw [hlen] at hi
    rw [slides_getD sds cfg i (by omega), slides_getD sds cfg (i + 1) hi]
    simp only [mkSlideMeta]
    rw [if_pos (by omega)]
  · rw [hlen]
    have := chainWalk_from sds cfg sds.length 0 hn (by omega)
    simpa using this

/-- C8 (witness): the chain invariant at a concrete three-spec input. -/
theorem claim_C8_witness :
    unitSpecs3 ≠ [] ∧
    ((create_slides_metadata unitSpecs3 cfg0).slides.length = unitSpecs3.length ∧
      navChainInvariant (create_slides_metadata unitSpecs3 cfg0).slides) :=
  ⟨by decide, claim_C8 unitSpecs3 cfg0 (by decide)⟩

/-- C10: `generate_ppt` never propagates an exception: whatever its inputs
and whatever its internal steps do, it returns a dictionary whose status is
either `"success"` (carrying the output paths and collected slide files) or
`"error"` (carrying the causal message). -/
theorem claim_C10 (sds : List SlideData) (cfg : PptConfig) (outputDir : String)
    (ok : Nat → Bool) (stepExc : Option String) :
    ((generate_ppt sds cfg outputDir ok stepExc).status = "success" ∨
      (generate_ppt sds cfg outputDir ok stepExc).status = "error") ∧
    (∀ e, stepExc = some e →
      generate_ppt sds cfg outputDir ok stepExc = .error e) ∧
    (stepExc = none →
      generate_ppt sds cfg outputDir ok stepExc =
        .success
          { ppt_dir := outputDir ++ "/ppt"
            total_slides := sds.length
            slide_files := generate_all_slides sds (outputDir ++ "/ppt") ok
            index_page := outputDir ++ "/ppt" ++ "/index.html"
            presenter_page := outputDir ++ "/ppt" ++ "/presenter.html"
            saved_metadata := create_slides_metadata sds cfg }) := by
  refine ⟨?_, ?_, ?_⟩
  · cases stepExc with
    | none => left; rfl
    | some e => right; rfl
  · intro e he
    subst he
    rfl
  · intro he
    subst he
    rfl

/-- C10 (witness): a step exception becomes the error dictionary; with no
step exception the success dictionary is returned. -/
theorem claim_C10_witness :
    generate_ppt unitSpecs5 cfg0 "/out" okExcept3 (some "disk full") =
      .error "disk full" :=
  (claim_C10 unitSpecs5 cfg0 "/out" okExcept3 (some "disk full")).2.1
    "disk full" rfl

/-! ## Claims about the design coordinator (C3, C4, C9) -/

/-- C3: `generate_design_spec` is total by construction (there is no failing
branch in its embedding), and whenever parsing or validation of the model
response fails — malformed JSON, missing required fields, or wrongly typed
values all make `parse_design_spec` return `none` — it returns exactly the
hard-coded default selected by the style tag. -/
theorem claim_C3 (responseContent style : String)
    (hfail : parse_design_spec responseContent = none) :
    generate_design_spec responseContent style = get_default_design style := by
  unfold generate_design_spec
  rw [hfail]

/-- C3 (witness): a prose response is not JSON, so the academic default is
returned. -/
theorem claim_C3_witness :
    parse_design_spec "The design: not json" = none ∧
    generate_design_spec "The design: not json" "academic" =
      get_default_design "academic" :=
  ⟨rfl, claim_C3 "The design: not json" "academic" rfl⟩

set_option maxRecDepth 8192 in
/-- C4 (counterexample): the parsed path performs only pydantic shape
checks, so a model response whose colour fields are arbitrary strings and
whose palette has 2 entries is returned as-is — the claimed invariant fails
on `generate_design_spec`'s output. -/
theorem claim_C4_counterexample :
    (generate_design_spec c4Response "business").primary_color = "red" ∧
    isValidHexColor (generate_design_spec c4Response "business").primary_color
      = false ∧
    (generate_design_spec c4Response "business").chart_colors.length = 2 := by
  refine ⟨?_, ?_, ?_⟩ <;> decide

/-- C4 (amended): the colour/palette invariant holds for every `DesignSpec`
produced by the default path — every hard-coded default satisfies it, and
therefore so does the result whenever parsing fails — but a spec parsed from
the model response is only shape-checked, not hex- or length-validated. -/
theorem claim_C4 (style : String) :
    designColorInvariant (get_default_design style) ∧
    ∀ raw, parse_design_spec raw = none →
      designColorInvariant (generate_design_spec raw style) := by
  have hdefault : designColorInvariant (get_default_design style) := by
    unfold get_default_design
    split_ifs
    · exact ⟨rfl, rfl, rfl, rfl, rfl, rfl, rfl⟩
    · exact ⟨rfl, rfl, rfl, rfl, rfl, rfl, rfl⟩
    · exact ⟨rfl, rfl, rfl, rfl, rfl, rfl, rfl⟩
    · exact ⟨rfl, rfl, rfl, rfl, rfl, rfl, rfl⟩
  refine ⟨hdefault, fun raw hraw => ?_⟩
  unfold generate_design_spec
  rw [hraw]
  exact hdefault

/-- C4 (witness): the ted default satisfies the invariant, and a
non-JSON response falls back to a spec satisfying it. -/
theorem claim_C4_witness :
    designColorInvariant (get_default_design "ted") ∧
    designColorInvariant (generate_design_spec "not json" "ted") :=
  ⟨(claim_C4 "ted").1, (claim_C4 "ted").2 "not json" rfl⟩

/-- C9 (counterexample): the defaults dictionary has no entry of its own for
`academic` or `creative`; both known tags receive the identical record that
`business` and arbitrary unknown tags receive. -/
theorem claim_C9_counterexample :
    get_default_design "academic" = designBusiness ∧
    get_default_design "creative" = designBusiness ∧
    get_default_design "business" = designBusiness ∧
    get_default_design "totally-unknown" = designBusiness :=
  ⟨rfl, rfl, rfl, rfl⟩

/-- C9 (amended): hard-coded default records exist for exactly `ted`,
`business` and `simple` (pairwise distinct); `academic`, `creative` and
every other tag fall back to the business default. -/
theorem claim_C9 :
    get_default_design "ted" = designTed ∧
    get_default_design "business" = designBusiness ∧
    get_default_design "simple" = designSimple ∧
    designTed ≠ designBusiness ∧
    designTed ≠ designSimple ∧
    designBusiness ≠ designSimple ∧
    ∀ style, style ≠ "ted" → style ≠ "business" → style ≠ "simple" →
      get_default_design style = designBusiness := by
  refine ⟨rfl, rfl, rfl, by decide, by decide, by decide, ?_⟩
  intro style h1 h2 h3
  unfold get_default_design
  rw [if_neg h1, if_neg h2, if_neg h3]

/-- C9 (witness): the amended claim at the `academic` tag. -/
theorem claim_C9_witness :
    get_default_design "academic" = designBusiness :=
  claim_C9.2.2.2.2.2.2 "academic" (by decide) (by decide) (by decide)

/-! ## Claim about the page agent narration sub-call (C7) -/

/-- C7 (counterexample): the main content call succeeds (its cleaned HTML is
non-empty), narration is requested, and the narration sub-call raises — the
unit does not yield a content-only result, the exception propagates and the
unit fails. -/
theorem claim_C7_counterexample :
    cleanPageHtml "<div>Market overview</div>" = "<div>Market overview</div>" ∧
    generate_page_html ctxScene "<div>Market overview</div>"
        (.error "narration call timed out") =
      .error "narration call timed out" :=
  ⟨rfl, rfl⟩

/-- C7 (amended): when narration is requested by the shared context, a
failure of the narration sub-call propagates out of `generate_page_html` and
fails the unit; a result carrying the generated content without narration is
produced only when no narration is requested (and with narration succeeding,
the content plus stripped notes are returned). -/
theorem claim_C7 (ctx : GlobalContext) (contentResponse : String) :
    (ctx.speech_scene.isSome = true →
      ∀ e, generate_page_html ctx contentResponse (.error e) = .error e) ∧
    (ctx.speech_scene = none →
      ∀ narrationOutcome,
        generate_page_html ctx contentResponse narrationOutcome =
          .ok { html_content := cleanPageHtml contentResponse }) ∧
    (ctx.speech_scene.isSome = true →
      ∀ notes, generate_page_html ctx contentResponse (.ok notes) =
        .ok { html_content := cleanPageHtml contentResponse
              speech_notes := some (pyStrip notes) }) := by
  cases h : ctx.speech_scene with
  | none =>
    refine ⟨fun hs => ?_, fun _ no => ?_, fun hs => ?_⟩
    · cases hs
    · unfold generate_page_html; rw [h]
    · cases hs
  | some scene =>
    refine ⟨fun _ e => ?_, fun hnone => ?_, fun _ notes => ?_⟩
    · unfold generate_page_html; rw [h]
    · cases hnone
    · unfold generate_page_html; rw [h]

/-- C7 (witness): the amended claim at a concrete context and responses. -/
theorem claim_C7_witness :
    ctxScene.speech_scene.isSome = true ∧
    generate_page_html ctxScene "<div>x</div>" (.error "boom") = .error "boom" ∧
    generate_page_html ctxNoScene "<div>x</div>" (.error "boom") =
      .ok { html_content := cleanPageHtml "<div>x</div>" } :=
  ⟨rfl, (claim_C7 ctxScene "<div>x</div>").1 rfl "boom",
    (claim_C7 ctxNoScene "<div>x</div>").2.1 rfl (.error "boom")⟩

/-! ## Claim about pipeline progress (C5) -/

/-- C5: whatever a run of `generate_document_task` does — including every
failure path — the sequence of progress values it reports (each written to
the stored run state and sent over the progress channel) is a monotonically
non-decreasing sequence of integers in 0..100, and is a prefix of the fixed
checkpoint sequence `0, 10, 20, 60, 80, 100`; a failure never reports a
lower value after a higher one, because the failure handler reports no
progress value at all. -/
theorem claim_C5 (o : RunOutcome) :
    nondecreasing (progressTrace o) = true ∧
    (∀ v ∈ progressTrace o, v ≤ 100) ∧
    ∃ k, progressTrace o = progressCheckpoints.take k := by
  cases o with
  | projectMissing => exact ⟨rfl, by decide, 0, rfl⟩
  | initRaises => exact ⟨rfl, by decide, 1, rfl⟩
  | searchRaises => exact ⟨rfl, by decide, 3, rfl⟩
  | searchUnsuccessful => exact ⟨rfl, by decide, 4, rfl⟩
  | outputMissing => exact ⟨rfl, by decide, 5, rfl⟩
  | completes => exact ⟨rfl, by decide, 6, rfl⟩

/-! ## Claim about the gateway structured-output fallback (C6) -/

theorem take_append_len {α : Type} (d B : List α) (n : Nat) :
    (d ++ B).take (d.length + n) = d ++ B.take n := by
  induction d with
  | nil => simp
  | cons a t ih =>
    simp only [List.cons_append, List.length_cons]
    have harith : t.length + 1 + n = (t.length + n) + 1 := by omega
    rw [harith, List.take_succ_cons, ih]

theorem pyStrip_mk_eq (w : List Char) (h1 : w.dropWhile isPyWS = w)
    (h2 : w.reverse.dropWhile isPyWS = w.reverse) :
    pyStrip (String.mk w) = String.mk w := by
  unfold pyStrip
  show String.mk (((w.dropWhile isPyWS).reverse.dropWhile isPyWS).reverse) = _
  rw [h1, h2, List.reverse_reverse]

theorem isPrefixOf_of_append {α : Type} [BEq α] :
    ∀ (l1 l2 l : List α), (l1 ++ l2).isPrefixOf l = true → l1.isPrefixOf l = true
  | [], _, _, _ => by simp [List.isPrefixOf]
  | a :: as, l2, [], h => by simp [List.isPrefixOf] at h
  | a :: as, l2, b :: bs, h => by
    simp only [List.cons_append, List.isPrefixOf, Bool.and_eq_true] at h ⊢
    exact ⟨h.1, isPrefixOf_of_append as l2 bs h.2⟩

theorem startsWith_ticks_of_json (s : String)
    (h : pyStartsWith s "```json" = true) : pyStartsWith s "```" = true := by
  unfold pyStartsWith at h ⊢
  have hsplit : ("```" : String).data ++ ("json" : String).data =
      ("```json" : String).data := rfl
  rw [← hsplit] at h
  exact isPrefixOf_of_append _ _ _ h

theorem pyEndsWith_ticks (u : List Char) :
    pyEndsWith (String.mk (u ++ ['\n', '`', '`', '`'])) "```" = true := by
  unfold pyEndsWith
  show (("```" : String).data.isSuffixOf (u ++ ['\n', '`', '`', '`'])) = true
  rw [show ("```" : String).data = ['`', '`', '`'] from rfl]
  unfold List.isSuffixOf
  rw [List.reverse_append]
  simp [List.isPrefixOf]

theorem strTake_drop_ticks (u : List Char) :
    strTakeChars (String.mk (u ++ ['\n', '`', '`', '`']))
        ((String.mk (u ++ ['\n', '`', '`', '`'])).length - 3) =
      String.mk (u ++ ['\n']) := by
  unfold strTakeChars
  have hlen : (String.mk (u ++ ['\n', '`', '`', '`'])).length = u.length + 4 := by
    rw [String.length_mk]
    simp
  rw [hlen]
  have harith : u.length + 4 - 3 = u.length + 1 := by omega
  rw [harith]
  show String.mk ((u ++ ['\n', '`', '`', '`']).take (u.length + 1)) = _
  rw [take_append_len u ['\n', '`', '`', '`'] 1]
  rfl

theorem data_ne_nil_of_ne_empty {p : String} (hne : p ≠ "") : p.data ≠ [] := by
  intro h
  exact hne (String.ext (by rw [h]))

theorem head_not_ws_of_dropWhile_eq {c : Char} {t : List Char}
    (h : (c :: t).dropWhile isPyWS = c :: t) : isPyWS c = false := by
  by_contra hcc
  rw [Bool.not_eq_false] at hcc
  rw [List.dropWhile_cons_of_pos hcc] at h
  have hlen := (List.dropWhile_sublist (p := isPyWS) (l := t)).length_le
  rw [h] at hlen
  simp at hlen

/-- C6 (counterexample): the fallback strips fence markers only at the very
start and end of the stripped response; with leading and trailing prose
around the fenced JSON, nothing is stripped and parsing fails, while the
bare payload parses — so the two do not produce the same record. -/
theorem claim_C6_counterexample :
    fallback_structured_response bareC6 =
      .ok (Json.obj [("title", Json.str "Intro")]) ∧
    jsonParseOk (fallback_structured_response wrappedC6) = false ∧
    fallback_structured_response wrappedC6 ≠ fallback_structured_response bareC6 := by
  refine ⟨rfl, rfl, fun h => ?_⟩
  have hb : jsonParseOk (fallback_structured_response bareC6) = true := rfl
  have hw : jsonParseOk (fallback_structured_response wrappedC6) = false := rfl
  rw [h, hb] at hw
  cases hw

/-- C6 (amended): the fallback parses a fenced response into exactly the
record the bare payload yields when the fenced block spans the whole
stripped response (no leading or trailing prose): for every payload with no
surrounding whitespace that does not itself start or end with a fence, the
extraction of `` ```json\n<payload>\n``` `` and of the bare payload agree,
and hence so do the parsed results. -/
theorem claim_C6 (p : String) (hne : p ≠ "")
    (hfront : p.data.dropWhile isPyWS = p.data)
    (hback : p.data.reverse.dropWhile isPyWS = p.data.reverse)
    (hpre : pyStartsWith p "```" = false)
    (hsuf : pyEndsWith p "```" = false) :
    gatewayExtract ("```json\n" ++ p ++ "\n```") = p ∧
    gatewayExtract p = p ∧
    fallback_structured_response ("```json\n" ++ p ++ "\n```") =
      fallback_structured_response p := by
  obtain ⟨c, t, hd⟩ : ∃ c t, p.data = c :: t := by
    match hp : p.data with
    | [] => exact absurd hp (data_ne_nil_of_ne_empty hne)
    | c :: t => exact ⟨c, t, rfl⟩
  have hc : isPyWS c = false := head_not_ws_of_dropWhile_eq (hd ▸ hfront)
  have hstrip : pyStrip p = p := by
    have := pyStrip_mk_eq p.data hfront hback
    simpa using this
  have hjson_false : pyStartsWith p "```json" = false := by
    cases hj : pyStartsWith p "```json"
    · rfl
    · rw [startsWith_ticks_of_json p hj] at hpre
      cases hpre
  -- the bare payload passes through the extraction unchanged
  have hbare : gatewayExtract p = p := by
    unfold gatewayExtract
    simp [hstrip, hjson_false, hpre, hsuf]
  -- the wrapped payload: strip is the identity, the opening fence is
  -- removed, the closing fence is removed, and the final strip removes the
  -- two newlines around the payload
  have hwdata : ("```json\n" ++ p ++ "\n```").data =
      '`' :: '`' :: '`' :: 'j' :: 's' :: 'o' :: 'n' :: '\n' ::
        (p.data ++ ['\n', '`', '`', '`']) := by
    simp [String.data_append]
  have hw : ("```json\n" ++ p ++ "\n```") =
      String.mk ('`' :: '`' :: '`' :: 'j' :: 's' :: 'o' :: 'n' :: '\n' ::
        (p.data ++ ['\n', '`', '`', '`'])) := String.ext hwdata
  have hwrapped : gatewayExtract ("```json\n" ++ p ++ "\n```") = p := by
    rw [hw]
    unfold gatewayExtract
    have hrev : ('`' :: '`' :: '`' :: 'j' :: 's' :: 'o' :: 'n' :: '\n' ::
          (p.data ++ ['\n', '`', '`', '`'])).reverse =
        '`' :: '`' :: '`' :: '\n' ::
          (p.data.reverse ++ ['\n', 'n', 'o', 's', 'j', '`', '`', '`']) := by
      simp
    have h0 : pyStrip (String.mk ('`' :: '`' :: '`' :: 'j' :: 's' :: 'o' :: 'n' :: '\n' ::
          (p.data ++ ['\n', '`', '`', '`']))) =
        String.mk ('`' :: '`' :: '`' :: 'j' :: 's' :: 'o' :: 'n' :: '\n' ::
          (p.data ++ ['\n', '`', '`', '`'])) := by
      apply pyStrip_mk_eq
      · exact List.dropWhile_cons_of_neg (by decide)
      · rw [hrev]
        exact List.dropWhile_cons_of_neg (by decide)
    have e1 : pyStartsWith
        (String.mk ('`' :: '`' :: '`' :: 'j' :: 's' :: 'o' :: 'n' :: '\n' ::
          (p.data ++ ['\n', '`', '`', '`']))) "```json" = true := rfl
    have e2 : strDropChars
        (String.mk ('`' :: '`' :: '`' :: 'j' :: 's' :: 'o' :: 'n' :: '\n' ::
          (p.data ++ ['\n', '`', '`', '`']))) 7 =
        String.mk (('\n' :: p.data) ++ ['\n', '`', '`', '`']) := rfl
    have e3 : pyStartsWith
        (String.mk (('\n' :: p.data) ++ ['\n', '`', '`', '`'])) "```" = false := rfl
    have e4 := pyEndsWith_ticks ('\n' :: p.data)
    have e5 := strTake_drop_ticks ('\n' :: p.data)
    simp only [h0, e1, e2, e3, e4, e5, if_true, Bool.false_eq_true, if_false,
      eq_self_iff_true]
    -- final strip: remove the leading and trailing newline around the payload
    unfold pyStrip
    show String.mk ((((('\n' :: p.data) ++ ['\n']).dropWhile
        isPyWS).reverse.dropWhile isPyWS).reverse) = p
    rw [List.cons_append, List.dropWhile_cons_of_pos (by decide)]
    rw [hd, List.cons_append, List.dropWhile_cons_of_neg (by simp [hc]), ← List.cons_append, ← hd]
    rw [List.reverse_append]
    show String.mk ((('\n' :: p.data.reverse).dropWhile isPyWS).reverse) = p
    rw [List.dropWhile_cons_of_pos (by decide), hback, List.reverse_reverse]
  exact ⟨hwrapped, hbare, by rw [fallback_structured_response,
    fallback_structured_response, hwrapped, hbare]⟩

/-- C6 (witness): the amended claim at the concrete bare payload. -/
theorem claim_C6_witness :
    (bareC6 ≠ "" ∧ bareC6.data.dropWhile isPyWS = bareC6.data ∧
      bareC6.data.reverse.dropWhile isPyWS = bareC6.data.reverse ∧
      pyStartsWith bareC6 "```" = false ∧ pyEndsWith bareC6 "```" = false) ∧
    (gatewayExtract ("```json\n" ++ bareC6 ++ "\n```") = bareC6 ∧
      gatewayExtract bareC6 = bareC6 ∧
      fallback_structured_response ("```json\n" ++ bareC6 ++ "\n```") =
        fallback_structured_response bareC6) :=
  ⟨⟨by decide, by decide, by decide, by decide, by decide⟩,
    claim_C6 bareC6 (by decide) (by decide) (by decide) (by decide) (by decide)⟩

end Docugen
